import Mathlib

/-!
Verification of the ms-purview-migrator pipeline: a shallow embedding of the
replay client (src/migrator.ts, src/zubuApi/api.ts), the interactive
authenticator (src/msAuth/login.ts, src/auth/login.ts), the three
response-intercepting scrapers (src/msEdiscovery/communications.ts, the cases
and templates scrapers) and the two orchestrators (src/scraper.ts,
src/index.ts), together with theorems settling the specified properties.
-/

namespace PurviewMigrator

/-- JSON values, as produced by parsing response bodies and export files. -/
inductive Json where
  | null
  | bool (b : Bool)
  | num (n : Int)
  | str (s : String)
  | arr (elems : List Json)
  | obj (fields : List (String × Json))

/-- Recognizer for the JSON null value. -/
def Json.isNull : Json → Bool
  | .null => true
  | _ => false

/-- JS property access v.k on a possibly-undefined value (none = undefined):
it throws a TypeError on undefined and null, yields the field (or undefined)
for objects, and undefined for the other primitives. -/
def jsMember : Option Json → String → Except String (Option Json)
  | none, _ => .error "TypeError"
  | some Json.null, _ => .error "TypeError"
  | some (Json.obj fields), key => .ok ((fields.find? (fun f => f.1 == key)).map (fun f => f.2))
  | some _, _ => .ok none

/-- JS property read on a value already known not to be null or undefined
(the error case of jsMember cannot arise there). -/
def jsField (v : Option Json) (k : String) : Option Json :=
  match jsMember v k with
  | .ok r => r
  | .error _ => none

/-- JS truthiness: undefined, null, false, 0 and the empty string are falsy;
every array and object (even empty) is truthy. -/
def jsTruthy : Option Json → Bool
  | none => false
  | some Json.null => false
  | some (Json.bool b) => b
  | some (Json.num n) => n != 0
  | some (Json.str s) => s != ""
  | some (Json.arr _) => true
  | some (Json.obj _) => true

/-- JS string conversion of a defined value, as performed inside template
literals: arrays join their elements with commas (null elements becoming the
empty string), objects print as [object Object]. -/
def jsToStr : Json → String
  | .null => "null"
  | .bool b => cond b "true" "false"
  | .num n => toString n
  | .str s => s
  | .arr xs => String.intercalate "," (xs.attach.map (fun p =>
      match p with
      | ⟨Json.null, _⟩ => ""
      | ⟨v, _⟩ => jsToStr v))
  | .obj _ => "[object Object]"

/-- JS string conversion in a template literal, undefined included. -/
def jsToString : Option Json → String
  | none => "undefined"
  | some v => jsToStr v

/-- The escaping JSON.stringify applies inside a string literal. -/
def jsonEscape (s : String) : String :=
  String.join (s.data.map (fun c =>
    if c = '"' then "\\\"" else if c = '\\' then "\\\\"
    else if c = '\n' then "\\n" else c.toString))

mutual

/-- JSON.stringify on a defined JSON value. -/
def Json.stringify : Json → String
  | .null => "null"
  | .bool b => cond b "true" "false"
  | .num n => toString n
  | .str s => "\"" ++ jsonEscape s ++ "\""
  | .arr xs => "[" ++ stringifyElems xs ++ "]"
  | .obj fs => "\x7b" ++ stringifyFields fs ++ "\x7d"

/-- Comma-separated serialization of a JSON array's elements. -/
def stringifyElems : List Json → String
  | [] => ""
  | [x] => Json.stringify x
  | x :: y :: rest => Json.stringify x ++ "," ++ stringifyElems (y :: rest)

/-- Comma-separated serialization of a JSON object's fields. -/
def stringifyFields : List (String × Json) → String
  | [] => ""
  | [(k, v)] => "\"" ++ jsonEscape k ++ "\":" ++ Json.stringify v
  | (k, v) :: f :: rest =>
      "\"" ++ jsonEscape k ++ "\":" ++ Json.stringify v ++ "," ++ stringifyFields (f :: rest)

end

/-- JSON.stringify as applied to a possibly-undefined argument: stringifying
undefined returns undefined, not a string. -/
def jsonStringifyOpt : Option Json → Option String
  | none => none
  | some v => some v.stringify

/-- JS index access v[0]: throws on null, yields the head (or undefined) for
arrays, the first character for strings, the "0" property for objects, and
undefined for the remaining primitives. -/
def jsIndexZero : Json → Except String (Option Json)
  | .null => .error "TypeError"
  | .arr xs => .ok xs.head?
  | .str s => .ok (if s.length = 0 then none else some (.str (s.take 1)))
  | .obj fs => .ok ((fs.find? (fun f => f.1 == "0")).map (fun f => f.2))
  | _ => .ok none

/-- JS for..of iteration: arrays iterate their elements, strings their
characters; every other value throws a TypeError. -/
def jsIterate : Json → Except String (List Json)
  | .arr xs => .ok xs
  | .str s => .ok (s.data.map (fun ch => Json.str ch.toString))
  | _ => .error "TypeError"

/-- The JS String.startsWith test used by the file filter of src/migrator.ts
line 56, embedded as a character-list comparison. -/
def strStartsWith (s p : String) : Bool :=
  p.data.isPrefixOf s.data

/-- The length-positive check communications.length > 0 of src/scraper.ts
under JS semantics: arrays and strings have a numeric length; on any other
value .length is undefined and the comparison is false. -/
def jsLenPos : Json → Bool
  | .arr xs => decide (0 < xs.length)
  | .str s => decide (0 < s.length)
  | _ => false

/-! ## Replay client: src/zubuApi/api.ts -/

/-- The object authenticateUser (src/zubuApi/api.ts) builds from the parsed
response body of the AuthenticateUser mutation; each field is the raw JS value
read off the body (undefined when the body omits it). -/
structure AuthResult where
  accessToken : Option Json
  refreshToken : Option Json
  userId : Option Json
  tenant_id : Option Json

/-- Embeds authenticateUser (src/zubuApi/api.ts) as a function of the parsed
JSON response body: it reads responseBody.data.authenticateUser and its four
fields; any TypeError on the way (e.g. a GraphQL error response carrying
data: null) is caught and re-thrown as the fixed error
"Authentication failed". -/
def authenticateUser (responseBody : Json) : Except String AuthResult :=
  match jsMember (some responseBody) "data" with
  | .error _ => .error "Authentication failed"
  | .ok dataVal =>
    match jsMember dataVal "authenticateUser" with
    | .error _ => .error "Authentication failed"
    | .ok authVal =>
      match jsMember authVal "accessToken" with
      | .error _ => .error "Authentication failed"
      | .ok a =>
        .ok ⟨a, jsField authVal "refreshToken", jsField authVal "userId",
          jsField authVal "tenant_id"⟩

/-- Embeds createTemplate (src/zubuApi/api.ts) as a function of the parsed
JSON response body of the CreateTemplate mutation: when result.errors is
truthy (any GraphQL error array, even an empty one, is a truthy value) the
call throws "Template creation failed"; likewise when reading
result.data.createTemplate throws; otherwise that field is returned. -/
def createTemplate (result : Json) : Except String (Option Json) :=
  match jsMember (some result) "errors" with
  | .error _ => .error "Template creation failed"
  | .ok errs =>
    if jsTruthy errs then .error "Template creation failed"
    else
      match jsMember (some result) "data" with
      | .error _ => .error "Template creation failed"
      | .ok dataVal =>
        match jsMember dataVal "createTemplate" with
        | .error _ => .error "Template creation failed"
        | .ok v => .ok v

/-! ## Replay orchestrator: src/migrator.ts -/

/-- One CreateTemplate mutation call as issued by src/migrator.ts: the
computed variables name, detail and tenant_id. templateBody is none when
JSON.stringify was applied to undefined (a missing field), in which case the
variable is absent from the serialized payload. -/
structure CreateTemplateCall where
  templateName : String
  templateBody : Option String
  tenantId : Option Json

/-- The fixed templateTypes array of src/migrator.ts line 39. -/
def templateTypes : List String := ["issuance", "reissuance", "release"]

/-- The single destination type the migrator's inner loop ranges over: the
source iterates over the one-element selection of templateTypes. -/
def selectedTemplateType : String := templateTypes.headD ""

/-- The create calls built by the template replay loop of src/migrator.ts
lines 40-50, which ranges over the one-element selection holding only
templates[0] (undefined when the array is empty, making the loop body's
template.templateName access throw) and, inside, over the single selected
type. Reading template[type].body throws when the per-type field is missing
or null; otherwise exactly one call is built, its body JSON.stringify of the
body field. -/
def templateCallsForTemplate (auth : AuthResult) (template : Option Json) :
    Except String (List CreateTemplateCall) :=
  match template with
  | none => .error "TypeError"
  | some Json.null => .error "TypeError"
  | some t =>
    match jsField (some t) selectedTemplateType with
    | none => .error "TypeError"
    | some Json.null => .error "TypeError"
    | some perType =>
      .ok [⟨jsToString (jsField (some t) "templateName") ++ " - " ++ selectedTemplateType,
            jsonStringifyOpt (jsField (some perType) "body"), auth.tenant_id⟩]

/-- The three create calls src/migrator.ts lines 63-82 build from the first
element of one communications export file: one call each for the Issuance,
Reissuance and Release subject/content pairs, all read from that single
element. -/
def commCallsOf (auth : AuthResult) (c : Json) : List CreateTemplateCall :=
  [⟨jsToString (jsField (some c) "CaseName") ++ " - " ++ jsToString (jsField (some c) "Name")
      ++ " - " ++ jsToString (jsField (some c) "IssuanceSubject"),
    jsonStringifyOpt (jsField (some c) "IssuanceContent"), auth.tenant_id⟩,
   ⟨jsToString (jsField (some c) "CaseName") ++ " - " ++ jsToString (jsField (some c) "Name")
      ++ " - " ++ jsToString (jsField (some c) "ReissuanceSubject"),
    jsonStringifyOpt (jsField (some c) "ReissuanceContent"), auth.tenant_id⟩,
   ⟨jsToString (jsField (some c) "CaseName") ++ " - " ++ jsToString (jsField (some c) "Name")
      ++ " - " ++ jsToString (jsField (some c) "ReleaseSubject"),
    jsonStringifyOpt (jsField (some c) "ReleaseContent"), auth.tenant_id⟩]

/-- The calls built for one matched communications file in src/migrator.ts
line 61: the parsed array is indexed at 0 only; when that first element is
undefined (empty array) or null, the communication.Name access of the
following log line throws before any call is issued. -/
def commFileCalls (auth : AuthResult) (content : Json) :
    Except String (List CreateTemplateCall) :=
  match jsIndexZero content with
  | .error e => .error e
  | .ok none => .error "TypeError"
  | .ok (some Json.null) => .error "TypeError"
  | .ok (some c) => .ok (commCallsOf auth c)

/-- Awaits each already-built create call in order against the destination
(respond gives the parsed response body each call receives); a thrown
createTemplate error aborts the batch, so the calls after it are never
attempted. Returns the calls actually issued and the aborting error, if
any. -/
def runCalls (respond : CreateTemplateCall → Json) :
    List CreateTemplateCall → List CreateTemplateCall × Option String
  | [] => ([], none)
  | c :: rest =>
    match createTemplate (respond c) with
    | .error e => ([c], some e)
    | .ok _ =>
      match runCalls respond rest with
      | (made, err) => (c :: made, err)

/-- The communications replay loop of src/migrator.ts lines 55-85: directory
entries whose name starts with "communication" are processed in order; each
contributes the three calls of its file's first element; any thrown error
(a TypeError reading that element, or a failed createTemplate) aborts the
remaining queue. -/
def commPhase (auth : AuthResult) (respond : CreateTemplateCall → Json) :
    List (String × Json) → List CreateTemplateCall × Option String
  | [] => ([], none)
  | (name, content) :: rest =>
    if strStartsWith name "communication" then
      match commFileCalls auth content with
      | .error e => ([], some e)
      | .ok calls =>
        match runCalls respond calls with
        | (made, some e) => (made, some e)
        | (made, none) =>
          match commPhase auth respond rest with
          | (more, err) => (made ++ more, err)
    else commPhase auth respond rest

/-- The calls issued and the final outcome of one replay run. -/
structure RunTrace where
  calls : List CreateTemplateCall
  failure : Option String

/-- The whole replay run of src/migrator.ts: authenticate against the
destination (authBody is the parsed response of the AuthenticateUser
mutation; a thrown failure aborts the run with no call made), then replay
only the first record of exports/templates.json for only the first template
type, then replay each matched communications file; respond gives the parsed
response body each CreateTemplate mutation receives. -/
def migratorRun (authBody : Json) (templates : List Json)
    (files : List (String × Json)) (respond : CreateTemplateCall → Json) : RunTrace :=
  match authenticateUser authBody with
  | .error e => ⟨[], some e⟩
  | .ok auth =>
    match templateCallsForTemplate auth templates.head? with
    | .error e => ⟨[], some e⟩
    | .ok tcalls =>
      match runCalls respond tcalls with
      | (made, some e) => ⟨made, some e⟩
      | (made, none) =>
        match commPhase auth respond files with
        | (more, err) => ⟨made ++ more, err⟩

/-! ## Interactive authenticator: src/msAuth/login.ts and src/auth/login.ts

The two MSLogin classes share one control flow for authenticate: the
credential steps (username entry or account-tile pick, password wait, fill,
submit) may throw; the second-factor wait is wrapped in its own try/catch
inside handle2FA, whose catch only logs. The environment is the outcome of
those two blocking waits. -/

/-- Embeds MSLogin.handle2FA: waits for the post-second-factor URL (bounded
to 60s); both branches are swallowed by its internal catch, so the method
never rejects — it only produces a console line. wait is the outcome of the
underlying waitForURL (error = the 60s timeout elapsed). -/
def handle2FA (wait : Except Unit Unit) : List String :=
  match wait with
  | .ok _ => ["Login successful"]
  | .error _ => ["Failed to handle two-factor authentication"]

/-- Embeds MSLogin.authenticate: if the credential steps throw, the promise
rejects with false; otherwise handle2FA runs (its failure only logged) and
the promise resolves true. Result: the resolved/rejected value; second
component: the console lines of the second-factor handling. -/
def authenticate (credentialSteps : Except Unit Unit) (wait : Except Unit Unit) :
    Except Bool Bool × List String :=
  match credentialSteps with
  | .error _ => (.error false, [])
  | .ok _ => (.ok true, handle2FA wait)

/-! ## Response-intercepting scrapers -/

/-- Outcome of one armed waitForResponse rendezvous: the matching response
arrives with a parsed JSON body, or the bounded wait times out and the
awaited promise rejects. -/
inductive RespOutcome where
  | arrives (body : Json)
  | timeout

/-- One appended error_log.txt entry as formatted by logError in
src/msEdiscovery/communications.ts: ISO timestamp, message, stack trace,
blank-line separated. now stands for new Date().toISOString(). -/
def logEntry (now message stack : String) : String :=
  now ++ " - " ++ message ++ "\n" ++ stack ++ "\n\n"

/-- Embeds scrapeCommunications (src/msEdiscovery/communications.ts): awaits
the communications response and returns its body's value field; any thrown
error — the 45s timeout, a TypeError reading .value of a null body, or
.length of an undefined or null value — is caught by the single try/catch,
logged exactly once to error_log.txt, and converted to an empty array.
Nothing escapes the method. -/
def scrapeCommunications (now stack caseName : String) (resp : RespOutcome) :
    Json × List String :=
  let failLog := [logEntry now ("Error scraping communications for case " ++ caseName) stack]
  match resp with
  | .timeout => (Json.arr [], failLog)
  | .arrives body =>
    match jsMember (some body) "value" with
    | .error _ => (Json.arr [], failLog)
    | .ok none => (Json.arr [], failLog)
    | .ok (some Json.null) => (Json.arr [], failLog)
    | .ok (some v) => (v, [])

/-- Embeds MSEDiscoveryCasesScraper.scrapeCases: the same response-await
pattern but with no try/catch and no logError — the 45s timeout, or a
TypeError reading .value.length, propagates to the caller, and nothing is
appended to the error log. -/
def scrapeCases (resp : RespOutcome) : Except String Json :=
  match resp with
  | .timeout => .error "TimeoutError"
  | .arrives body =>
    match jsMember (some body) "value" with
    | .error e => .error e
    | .ok none => .error "TypeError"
    | .ok (some Json.null) => .error "TypeError"
    | .ok (some v) => .ok v

/-- The UI steps of one row's detail cycle in
MSEDiscoveryTemplateScraper.scrapeTemplates. -/
inductive RowEvent where
  | clickRow
  | armWait
  | clickEdit
  | captureResponse
  | clickCancel

/-- The event sequence of one completed open-capture-cancel cycle. -/
def rowCycle : List RowEvent :=
  [.clickRow, .armWait, .clickEdit, .captureResponse, .clickCancel]

/-- Embeds MSEDiscoveryTemplateScraper.scrapeTemplates: strictly sequential
over the rendered rows; per row it clicks the name cell, arms a fresh 15s
detail-response wait, clicks Edit, awaits the response, pushes the whole
JSON body (no field extraction), and clicks Cancel before the next row.
There is no try/catch: a row whose wait times out throws out of the method,
losing the collection; later rows are not processed. Returns the scraped
bodies and the performed UI events. -/
def scrapeTemplates : List RespOutcome → Except String (List Json × List RowEvent)
  | [] => .ok ([], [])
  | RespOutcome.timeout :: _ => .error "TimeoutError"
  | RespOutcome.arrives body :: rest =>
    match scrapeTemplates rest with
    | .error e => .error e
    | .ok (bodies, evs) => .ok (body :: bodies, rowCycle ++ evs)

/-! ## Orchestrators: src/scraper.ts and src/index.ts -/

/-- The observable steps an orchestrator run performs, in order. -/
inductive RunEvent where
  | navigateLoginPage
  | clickAccountTile
  | fillUsernameField
  | fillPasswordField
  | clickSubmit
  | saveSession
  | scrapeTemplatesStep
  | scrapeCasesStep
  | scrapeCommunicationsStep (caseId : String)
  | writeFile (path : String)

/-- The id string a scraped case contributes to its export path, via the
template-literal conversion of eDiscoveryCase.id. -/
def caseIdStr (x : Json) : String := jsToString (jsField (some x) "id")

/-- The display name passed to the communications scraper for a case. -/
def caseNameStr (x : Json) : String := jsToString (jsField (some x) "displayName")

/-- The per-case export path of src/scraper.ts line 87. -/
def commExportPath (x : Json) : String :=
  "exports/communications_" ++ caseIdStr x ++ ".json"

/-- The communications value scraped for one case, given the per-case
response outcomes of the environment. -/
def scrapedComms (now stack : String) (commResp : String → RespOutcome) (x : Json) : Json :=
  (scrapeCommunications now stack (caseNameStr x) (commResp (caseIdStr x))).1

/-- The per-case loop of src/scraper.ts lines 76-91: each scraped case object
is destructured (eDiscoveryCase.id throws on a null element, aborting the
run), its communications scraped — any failure there already swallowed by
scrapeCommunications — and the export file written only when the scraped
value's length compares greater than zero. Returns the events, the error-log
lines appended, and the aborting error, if any. -/
def caseLoop (now stack : String) (commResp : String → RespOutcome) :
    List Json → List RunEvent × List String × Option String
  | [] => ([], [], none)
  | x :: rest =>
    if x.isNull then ([], [], some "TypeError")
    else
      let scraped := scrapeCommunications now stack (caseNameStr x) (commResp (caseIdStr x))
      let writeEvs := if jsLenPos scraped.1 then [RunEvent.writeFile (commExportPath x)] else []
      let r := caseLoop now stack commResp rest
      (RunEvent.scrapeCommunicationsStep (caseIdStr x) :: writeEvs ++ r.1,
        scraped.2 ++ r.2.1, r.2.2)

/-- The environment one src/scraper.ts run observes: the sign-in probe after
the initial navigation, the account-chooser probe, whether the password field
ever appears, the outcome of the cases response wait, the per-case
communications response outcomes, and the wall-clock/stack text any error
log line would carry. -/
structure ScraperEnv where
  signInPromptVisible : Bool
  accountChooserVisible : Bool
  passwordFieldAppears : Bool
  casesResp : RespOutcome
  commResp : String → RespOutcome
  now : String
  stack : String

/-- Embeds the src/scraper.ts orchestrator: it always navigates to the login
page first (msLogin.goto on line 37) and only then probes for a sign-in
prompt; when none is visible the login block is skipped entirely and the run
proceeds to scraping; otherwise enterCredentials picks the account tile or
fills the username, waits for the password field (a timeout there rejects
and aborts the run, since the await on authenticate is uncaught), fills and
submits, and the session is saved. Then templates are scraped and written
unconditionally, the cases list is scraped (its errors propagate), and the
per-case loop runs. -/
def scraperRun (env : ScraperEnv) : List RunEvent × List String × Option String :=
  let loginPart : List RunEvent × Option String :=
    if env.signInPromptVisible then
      let first := if env.accountChooserVisible then [RunEvent.clickAccountTile]
        else [RunEvent.fillUsernameField, RunEvent.clickSubmit]
      if env.passwordFieldAppears then
        (first ++ [RunEvent.fillPasswordField, RunEvent.clickSubmit, RunEvent.saveSession], none)
      else (first, some "TimeoutError")
    else ([], none)
  match loginPart with
  | (evs, some e) => (RunEvent.navigateLoginPage :: evs, [], some e)
  | (evs, none) =>
    let pre := RunEvent.navigateLoginPage :: evs
      ++ [RunEvent.scrapeTemplatesStep, RunEvent.writeFile "exports/templates.json"]
    match scrapeCases env.casesResp with
    | .error e => (pre ++ [RunEvent.scrapeCasesStep], [], some e)
    | .ok v =>
      match jsIterate v with
      | .error e => (pre ++ [RunEvent.scrapeCasesStep], [], some e)
      | .ok caseObjs =>
        let r := caseLoop env.now env.stack env.commResp caseObjs
        (pre ++ [RunEvent.scrapeCasesStep] ++ r.1, r.2.1, r.2.2)

/-- Embeds the src/index.ts orchestrator: when the session file exists
(existsSync on line 21) the whole login block — navigation, credential fill,
submit — is skipped and the run proceeds straight to the template scrape;
otherwise the page navigates to the login URL and the src/auth/login.ts
authenticate fills the username, waits for the password field (timeout
rejects, uncaught), fills and submits, and saves the session. -/
def indexRun (sessionFileExists passwordFieldAppears : Bool) :
    List RunEvent × Option String :=
  if sessionFileExists then ([RunEvent.scrapeTemplatesStep], none)
  else if passwordFieldAppears then
    ([RunEvent.navigateLoginPage, RunEvent.fillUsernameField, RunEvent.clickSubmit,
      RunEvent.fillPasswordField, RunEvent.clickSubmit, RunEvent.saveSession,
      RunEvent.scrapeTemplatesStep], none)
  else
    ([RunEvent.navigateLoginPage, RunEvent.fillUsernameField, RunEvent.clickSubmit],
      some "TimeoutError")

/-! ## Concrete fixtures used by the theorems below -/

/-- A successful AuthenticateUser response body. -/
def goodAuthBody : Json :=
  Json.obj [("data", Json.obj [("authenticateUser", Json.obj
    [("accessToken", Json.str "tok"), ("refreshToken", Json.str "ref"),
     ("userId", Json.str "u1"), ("tenant_id", Json.str "t1")])])]

/-- The AuthResult authenticateUser builds from goodAuthBody. -/
def goodAuth : AuthResult :=
  ⟨some (Json.str "tok"), some (Json.str "ref"), some (Json.str "u1"), some (Json.str "t1")⟩

/-- An AuthenticateUser response carrying a GraphQL error: data is null, so
reading data.authenticateUser throws inside authenticateUser. -/
def failedAuthBody : Json :=
  Json.obj [("errors", Json.arr [Json.obj [("message", Json.str "bad credentials")]]),
            ("data", Json.null)]

/-- A successful CreateTemplate response body. -/
def okCreateResponse : Json :=
  Json.obj [("data", Json.obj [("createTemplate", Json.str "new-id")])]

/-- A destination that answers every create call with okCreateResponse. -/
def okRespond : CreateTemplateCall → Json := fun _ => okCreateResponse

/-- A CreateTemplate response carrying a GraphQL error array. -/
def errCreateResponse : Json :=
  Json.obj [("errors", Json.arr [Json.obj [("message", Json.str "boom")]]),
            ("data", Json.null)]

/-- A destination that answers every create call with errCreateResponse. -/
def errRespond : CreateTemplateCall → Json := fun _ => errCreateResponse

/-- A template record whose issuance body is blank (null). -/
def blankBodyTemplate : Json :=
  Json.obj [("templateName", Json.str "T1"), ("issuance", Json.obj [("body", Json.null)])]

/-- A second template record, present in the export but never replayed. -/
def secondTemplate : Json :=
  Json.obj [("templateName", Json.str "T2"), ("issuance", Json.obj [("body", Json.str "b2")])]

/-! ## Helper lemmas -/

/-- When the destination accepts every call, runCalls issues the whole batch
and reports no failure. -/
lemma runCalls_eq_of_ok (respond : CreateTemplateCall → Json)
    (h : ∀ c, ∃ v, createTemplate (respond c) = .ok v) :
    ∀ l, runCalls respond l = (l, none) := by
  intro l
  induction l with
  | nil => rfl
  | cons c rest ih =>
    obtain ⟨v, hv⟩ := h c
    simp [runCalls, hv, ih]

/-! ## C1: template replay fan-out -/

/-- C1 counterexample: with a two-record exports/templates.json and a
destination accepting every call, the replay run issues exactly one create
call, not one per template record — the claimed per-(template, type) fan-out
does not happen because the loops range over the first record and the first
type only. -/
theorem C1_counterexample :
    (migratorRun goodAuthBody [blankBodyTemplate, secondTemplate] [] okRespond).calls.length = 1
      ∧ 1 ≠ [blankBodyTemplate, secondTemplate].length := by
  constructor
  · simp [migratorRun, authenticateUser, goodAuthBody, jsMember, jsField,
      templateCallsForTemplate, selectedTemplateType, templateTypes, blankBodyTemplate,
      jsToString, jsToStr, jsonStringifyOpt, runCalls, createTemplate, okRespond,
      okCreateResponse, jsTruthy, commPhase]
  · simp

/-- C1 (amended): replaying an exported Template JSON array issues exactly
one create call, for the first template record and the first destination type
(issuance) only; later records are never replayed. For that first record the
call is never skipped: a blank (null) body still yields the call, its body
field serialized to the string null. -/
theorem C1_thm (authBody : Json) (auth : AuthResult)
    (hauth : authenticateUser authBody = .ok auth)
    (nm : String) (body : Json) (ts : List Json)
    (respond : CreateTemplateCall → Json)
    (hresp : ∀ c, ∃ v, createTemplate (respond c) = .ok v) :
    migratorRun authBody
      (Json.obj [("templateName", Json.str nm), ("issuance", Json.obj [("body", body)])] :: ts)
      [] respond
    = ⟨[⟨nm ++ " - " ++ selectedTemplateType, some body.stringify, auth.tenant_id⟩], none⟩ := by
  have hcalls : templateCallsForTemplate auth
      (some (Json.obj [("templateName", Json.str nm), ("issuance", Json.obj [("body", body)])]))
      = .ok [⟨nm ++ " - " ++ selectedTemplateType, some body.stringify, auth.tenant_id⟩] := by
    simp [templateCallsForTemplate, selectedTemplateType, templateTypes, jsField, jsMember,
      jsToString, jsToStr, jsonStringifyOpt]
  unfold migratorRun
  rw [hauth]
  simp only [List.head?_cons, hcalls, runCalls_eq_of_ok respond hresp, commPhase]
  simp

/-- C1 witness: the amended statement evaluated on the two-record export with
a blank-bodied first record. -/
theorem C1_witness :
    migratorRun goodAuthBody [blankBodyTemplate, secondTemplate] [] okRespond
      = ⟨[⟨"T1 - issuance", some "null", some (Json.str "t1")⟩], none⟩ := by
  have h := C1_thm goodAuthBody goodAuth
    (by simp [authenticateUser, goodAuthBody, goodAuth, jsMember, jsField]) "T1" Json.null
    [secondTemplate] okRespond
    (fun c => ⟨some (Json.str "new-id"),
      by simp [createTemplate, okRespond, okCreateResponse, jsMember, jsTruthy]⟩)
  simpa [blankBodyTemplate, selectedTemplateType, templateTypes, Json.stringify, goodAuth] using h

/-! ## C2: timeout behavior at the scraper boundary -/

/-- C2 counterexample: when the cases response never arrives within its
timeout, scrapeCases does not return an empty collection — the timeout error
propagates past the scraper boundary (and no error-log entry is appended,
since the cases scraper has no logError at all). -/
theorem C2_counterexample :
    scrapeCases RespOutcome.timeout = .error "TimeoutError"
      ∧ ¬ ∃ v, scrapeCases RespOutcome.timeout = .ok v := by
  refine ⟨rfl, ?_⟩
  rintro ⟨v, hv⟩
  simp [scrapeCases] at hv

/-- C2 (amended): only scrapeCommunications has the claimed behavior — on a
missed response it returns an empty collection and appends exactly one
timestamped entry to the error log, throwing nothing; scrapeCases and
scrapeTemplates have no try/catch, so their timeout propagates to the caller
and no error-log entry is written. -/
theorem C2_thm (now stack caseName : String) (pre : List Json) :
    scrapeCommunications now stack caseName RespOutcome.timeout
      = (Json.arr [],
          [logEntry now ("Error scraping communications for case " ++ caseName) stack])
      ∧ scrapeCases RespOutcome.timeout = .error "TimeoutError"
      ∧ scrapeTemplates (pre.map RespOutcome.arrives ++ [RespOutcome.timeout])
          = .error "TimeoutError" := by
  refine ⟨rfl, rfl, ?_⟩
  induction pre with
  | nil => rfl
  | cons b rest ih => simp [scrapeTemplates, ih]

/-- C2 witness: the amended statement evaluated on concrete timestamp, stack,
case name and a one-row prefix. -/
theorem C2_witness :
    scrapeCommunications "2025-01-01T00:00:00.000Z" "stacktrace" "Case One" RespOutcome.timeout
      = (Json.arr [],
          ["2025-01-01T00:00:00.000Z - Error scraping communications for case Case One\nstacktrace\n\n"])
      ∧ scrapeCases RespOutcome.timeout = .error "TimeoutError"
      ∧ scrapeTemplates [RespOutcome.arrives (Json.str "row1"), RespOutcome.timeout]
          = .error "TimeoutError" := by
  have h := C2_thm "2025-01-01T00:00:00.000Z" "stacktrace" "Case One" [Json.str "row1"]
  simpa [logEntry] using h

/-! ## C4: authenticate never propagates the second-factor timeout -/

/-- C4: MSLogin.authenticate resolves true whenever the credential steps
succeed, regardless of the second-factor wait's outcome — the 60s-bounded
wait's failure is only logged by handle2FA's internal catch, never
propagated — and it rejects exactly when the credential steps throw. -/
theorem C4_thm (cred wait : Except Unit Unit) :
    (cred = .ok () → authenticate cred wait = (.ok true, handle2FA wait))
      ∧ ((authenticate cred wait).1 = .error false ↔ cred = .error ()) := by
  cases cred with
  | ok u => cases u; simp [authenticate]
  | error u => cases u; simp [authenticate]

/-- C4 witness: with succeeding credential steps and a timed-out second
factor the promise still resolves true (the failure only logged); with
throwing credential steps it rejects with false. -/
theorem C4_witness :
    authenticate (.ok ()) (.error ())
        = (.ok true, ["Failed to handle two-factor authentication"])
      ∧ (authenticate (.error ()) (.ok ())).1 = .error false := by
  refine ⟨?_, ?_⟩
  · simpa [handle2FA] using (C4_thm (.ok ()) (.error ())).1 rfl
  · exact (C4_thm (.error ()) (.ok ())).2.mpr rfl

/-! ## C5: destination authentication failure aborts the whole replay -/

/-- C5: when authenticateUser throws (any error response makes it throw
"Authentication failed"), the replay run aborts with no create call
attempted, whatever the export files hold. -/
theorem C5_thm (authBody : Json) (e : String)
    (hfail : authenticateUser authBody = .error e)
    (templates : List Json) (files : List (String × Json))
    (respond : CreateTemplateCall → Json) :
    migratorRun authBody templates files respond = ⟨[], some e⟩ := by
  unfold migratorRun
  rw [hfail]

/-- C5 witness: a GraphQL error response to AuthenticateUser (data null)
aborts the run before the waiting template and communications exports produce
any call. -/
theorem C5_witness :
    migratorRun failedAuthBody [blankBodyTemplate]
        [("communications_c1.json", Json.arr [])] okRespond
      = ⟨[], some "Authentication failed"⟩ :=
  C5_thm failedAuthBody "Authentication failed"
    (by simp [authenticateUser, failedAuthBody, jsMember]) [blankBodyTemplate]
    [("communications_c1.json", Json.arr [])] okRespond

/-! ## C6: a GraphQL error array is a hard failure that aborts the queue -/

/-- C6: an error array in a create response makes createTemplate throw its
fixed failure (no retry, no batching); since the replay loop does not catch
per-call failures, the first failing call aborts the batch — later calls of
the batch and every call of every later communications file are never
attempted. -/
theorem C6_thm :
    (∀ result errl, jsMember (some result) "errors" = .ok (some (Json.arr errl)) →
        createTemplate result = .error "Template creation failed")
      ∧ (∀ respond c rest e, createTemplate (respond c) = .error e →
          runCalls respond (c :: rest) = ([c], some e))
      ∧ (∀ auth respond fname content c cs e rest,
          strStartsWith fname "communication" = true →
          commFileCalls auth content = .ok (c :: cs) →
          createTemplate (respond c) = .error e →
          commPhase auth respond ((fname, content) :: rest) = ([c], some e)) := by
  refine ⟨?_, ?_, ?_⟩
  · intro result errl h
    unfold createTemplate
    rw [h]
    simp [jsTruthy]
  · intro respond c rest e h
    unfold runCalls
    rw [h]
  · intro auth respond fname content c cs e rest h1 h2 h3
    unfold commPhase
    rw [h1]
    simp only [if_true, h2]
    unfold runCalls
    rw [h3]

/-- A communication record used by the replay witnesses; its contents are
blank so their bodies serialize to null. -/
def demoCommObj : Json :=
  Json.obj [("CaseName", Json.str "CN"), ("Name", Json.str "N"),
    ("IssuanceSubject", Json.str "IS"), ("IssuanceContent", Json.null),
    ("ReissuanceSubject", Json.str "RS"), ("ReissuanceContent", Json.null),
    ("ReleaseSubject", Json.str "LS"), ("ReleaseContent", Json.null)]

/-- A communications export whose array holds one record. -/
def demoCommContent : Json := Json.arr [demoCommObj]

/-- The three calls demoCommObj induces, in source order. -/
def demoCommCall1 : CreateTemplateCall := ⟨"CN - N - IS", some "null", some (Json.str "t1")⟩

/-- Second call of demoCommObj (reissuance). -/
def demoCommCall2 : CreateTemplateCall := ⟨"CN - N - RS", some "null", some (Json.str "t1")⟩

/-- Third call of demoCommObj (release). -/
def demoCommCall3 : CreateTemplateCall := ⟨"CN - N - LS", some "null", some (Json.str "t1")⟩

/-- Two stand-alone calls used to exercise the batch runner. -/
def demoCallA : CreateTemplateCall := ⟨"A", some "null", some (Json.str "t1")⟩

/-- Companion call that the aborted batch never issues. -/
def demoCallB : CreateTemplateCall := ⟨"B", some "null", some (Json.str "t1")⟩

/-- C6 witness: an error-array response fails the call; the batch stops at
the first failing call; a failing first file aborts the second file's calls
entirely. -/
theorem C6_witness :
    createTemplate errCreateResponse = .error "Template creation failed"
      ∧ runCalls errRespond [demoCallA, demoCallB] = ([demoCallA], some "Template creation failed")
      ∧ commPhase goodAuth errRespond
          [("communications_c1.json", demoCommContent), ("communications_c2.json", demoCommContent)]
          = ([demoCommCall1], some "Template creation failed") := by
  refine ⟨C6_thm.1 errCreateResponse [Json.obj [("message", Json.str "boom")]]
      (by simp [errCreateResponse, jsMember]), ?_, ?_⟩
  · exact C6_thm.2.1 errRespond demoCallA [demoCallB] "Template creation failed"
      (by simp [createTemplate, errRespond, errCreateResponse, jsMember, jsTruthy])
  · refine C6_thm.2.2 goodAuth errRespond "communications_c1.json" demoCommContent
      demoCommCall1 [demoCommCall2, demoCommCall3] "Template creation failed"
      [("communications_c2.json", demoCommContent)] (by decide) ?_
      (by simp [createTemplate, errRespond, errCreateResponse, jsMember, jsTruthy])
    simp [commFileCalls, demoCommContent, jsIndexZero, commCallsOf, demoCommObj, jsField,
      jsMember, jsToString, jsToStr, jsonStringifyOpt, Json.stringify, goodAuth,
      demoCommCall1, demoCommCall2, demoCommCall3]

/-! ## C7: one sequential cycle per rendered row -/

/-- C7: with N rendered rows whose detail responses all arrive in time, the
per-row template scraper performs exactly N open-capture-cancel cycles, one
at a time in row order, and returns exactly the N captured bodies. -/
theorem C7_thm (bodies : List Json) :
    scrapeTemplates (bodies.map RespOutcome.arrives)
      = .ok (bodies, (List.replicate bodies.length rowCycle).flatten) := by
  induction bodies with
  | nil => rfl
  | cons b rest ih => simp [scrapeTemplates, ih, List.replicate_succ]

/-- C7 witness: two rows, two cycles, two entries. -/
theorem C7_witness :
    scrapeTemplates [RespOutcome.arrives (Json.str "a"), RespOutcome.arrives (Json.str "b")]
      = .ok ([Json.str "a", Json.str "b"], rowCycle ++ rowCycle) := by
  have heq : [RespOutcome.arrives (Json.str "a"), RespOutcome.arrives (Json.str "b")]
      = [Json.str "a", Json.str "b"].map RespOutcome.arrives := rfl
  rw [heq, C7_thm [Json.str "a", Json.str "b"]]
  simp [List.replicate]

/-! ## C8: payload extraction per response shape -/

/-- The single case record of the mocked cases response. -/
def mockedCaseRecord : Json :=
  Json.obj [("id", Json.str "c1"), ("displayName", Json.str "Case One")]

/-- The mocked cases response body of the specified scenario. -/
def mockedCasesBody : Json := Json.obj [("value", Json.arr [mockedCaseRecord])]

/-- C8: collection scrapers parse the body and extract its value field — the
mocked cases response yields exactly the one contained record — while the
per-row template detail scraper appends the whole parsed body without field
extraction. -/
theorem C8_thm :
    scrapeCases (RespOutcome.arrives mockedCasesBody) = .ok (Json.arr [mockedCaseRecord])
      ∧ (∀ now stack caseName xs,
          scrapeCommunications now stack caseName
            (RespOutcome.arrives (Json.obj [("value", Json.arr xs)])) = (Json.arr xs, []))
      ∧ (∀ body rest, scrapeTemplates (RespOutcome.arrives body :: rest)
          = (scrapeTemplates rest).map (fun pr => (body :: pr.1, rowCycle ++ pr.2))) := by
  refine ⟨?_, ?_, ?_⟩
  · simp [scrapeCases, mockedCasesBody, mockedCaseRecord, jsMember]
  · intro now stack caseName xs
    simp [scrapeCommunications, jsMember]
  · intro body rest
    cases h : scrapeTemplates rest <;> simp [scrapeTemplates, h, Except.map]

/-- C8 witness: the conjuncts evaluated at the mocked bodies. -/
theorem C8_witness :
    scrapeCases (RespOutcome.arrives mockedCasesBody) = .ok (Json.arr [mockedCaseRecord])
      ∧ scrapeCommunications "T" "S" "Case One"
          (RespOutcome.arrives (Json.obj [("value", Json.arr [Json.str "m"])]))
          = (Json.arr [Json.str "m"], [])
      ∧ scrapeTemplates [RespOutcome.arrives mockedCasesBody] = .ok ([mockedCasesBody], rowCycle) := by
  refine ⟨C8_thm.1, C8_thm.2.1 "T" "S" "Case One" [Json.str "m"], ?_⟩
  rw [show [RespOutcome.arrives mockedCasesBody]
        = RespOutcome.arrives mockedCasesBody :: [] from rfl,
    C8_thm.2.2 mockedCasesBody []]
  simp [scrapeTemplates, Except.map, rowCycle]

/-! ## C9: communications replay reads the first element only -/

/-- C9: for a matched communications export whose parsed array starts with a
non-null record, the replay builds exactly three create calls (issuance,
reissuance, release), all read from that first element; the elements beyond
the first never influence the calls, and with an accepting destination the
file's replay issues exactly those three calls. -/
theorem C9_thm (auth : AuthResult) (c : Json) (hc : c.isNull = false) (extra : List Json) :
    commFileCalls auth (Json.arr (c :: extra)) = .ok (commCallsOf auth c)
      ∧ (commCallsOf auth c).length = 3
      ∧ (∀ respond fname, strStartsWith fname "communication" = true →
          (∀ cc, ∃ v, createTemplate (respond cc) = .ok v) →
          commPhase auth respond [(fname, Json.arr (c :: extra))]
            = (commCallsOf auth c, none)) := by
  have h1 : commFileCalls auth (Json.arr (c :: extra)) = .ok (commCallsOf auth c) := by
    cases c <;> simp_all [commFileCalls, jsIndexZero, Json.isNull]
  refine ⟨h1, by simp [commCallsOf], ?_⟩
  intro respond fname hf hok
  unfold commPhase
  rw [hf]
  simp only [if_true, h1, runCalls_eq_of_ok respond hok]
  simp [commPhase]

/-- C9 witness: a two-element export array replays only its first record's
three calls; a trailing unrelated record changes nothing. -/
theorem C9_witness :
    commFileCalls goodAuth (Json.arr [demoCommObj, secondTemplate])
        = .ok (commCallsOf goodAuth demoCommObj)
      ∧ (commCallsOf goodAuth demoCommObj).length = 3
      ∧ commPhase goodAuth okRespond
          [("communications_c3.json", Json.arr [demoCommObj, secondTemplate])]
          = (commCallsOf goodAuth demoCommObj, none) := by
  have h := C9_thm goodAuth demoCommObj (by simp [demoCommObj, Json.isNull]) [secondTemplate]
  exact ⟨h.1, h.2.1, h.2.2 okRespond "communications_c3.json" (by decide)
    (fun cc => ⟨some (Json.str "new-id"),
      by simp [createTemplate, okRespond, okCreateResponse, jsMember, jsTruthy]⟩)⟩

/-! ## C3: a valid session skips the credential steps -/

/-- Every event the per-case loop emits is a communications-scrape step or a
file write; in particular no login interaction happens there. -/
lemma caseLoop_event_shape (now stack : String) (commResp : String → RespOutcome) :
    ∀ l ev, ev ∈ (caseLoop now stack commResp l).1 →
      (∃ s, ev = RunEvent.scrapeCommunicationsStep s) ∨ ∃ p, ev = RunEvent.writeFile p := by
  intro l
  induction l with
  | nil => intro ev h; simp [caseLoop] at h
  | cons x rest ih =>
    intro ev h
    by_cases hx : x.isNull
    · simp [caseLoop, hx] at h
    · have hstep : (caseLoop now stack commResp (x :: rest)).1
          = RunEvent.scrapeCommunicationsStep (caseIdStr x) ::
            ((if jsLenPos (scrapedComms now stack commResp x) = true
              then [RunEvent.writeFile (commExportPath x)] else [])
              ++ (caseLoop now stack commResp rest).1) := by
        simp [caseLoop, hx, scrapedComms]
      rw [hstep] at h
      rcases List.mem_cons.mp h with h | h2
      · exact Or.inl ⟨_, h⟩
      · rcases List.mem_append.mp h2 with h | h
        · by_cases hw : jsLenPos (scrapedComms now stack commResp x) = true
          · rw [if_pos hw] at h
            exact Or.inr ⟨_, List.mem_singleton.mp h⟩
          · rw [if_neg hw] at h
            simp at h
        · exact ih ev h

/-- With no sign-in prompt visible after the initial navigation, a
src/scraper.ts run consists of the login-page navigation followed directly by
the scraping steps; all remaining events are communications scrapes or export
writes — no credential interaction. -/
lemma scraperRun_valid_session (env : ScraperEnv) (hvalid : env.signInPromptVisible = false) :
    ∃ tailEvs, (scraperRun env).1
        = RunEvent.navigateLoginPage :: RunEvent.scrapeTemplatesStep ::
          RunEvent.writeFile "exports/templates.json" :: RunEvent.scrapeCasesStep :: tailEvs
      ∧ ∀ ev ∈ tailEvs,
          (∃ s, ev = RunEvent.scrapeCommunicationsStep s) ∨ ∃ p, ev = RunEvent.writeFile p := by
  unfold scraperRun
  rw [hvalid]
  cases hc : scrapeCases env.casesResp with
  | error e => exact ⟨[], by simp, by simp⟩
  | ok v =>
    cases hi : jsIterate v with
    | error e => exact ⟨[], by simp [hi], by simp⟩
    | ok caseObjs =>
      refine ⟨(caseLoop env.now env.stack env.commResp caseObjs).1, by simp [hi], ?_⟩
      intro ev hev
      exact caseLoop_event_shape env.now env.stack env.commResp caseObjs ev hev

/-- A run environment with a valid session: no sign-in prompt is visible
after the initial navigation; the cases response arrives with an empty
list. -/
def validSessionEnv : ScraperEnv :=
  ⟨false, false, true, RespOutcome.arrives (Json.obj [("value", Json.arr [])]),
    fun _ => RespOutcome.timeout, "2025-01-01T00:00:00.000Z", "stacktrace"⟩

/-- C3 counterexample: even with a valid session the src/scraper.ts
orchestrator performs a login-page navigation — msLogin.goto runs before the
sign-in probe — contradicting the claim that no login-page navigation
occurs. -/
theorem C3_counterexample :
    RunEvent.navigateLoginPage ∈ (scraperRun validSessionEnv).1 := by
  simp [scraperRun, validSessionEnv, scrapeCases, jsMember, jsIterate, caseLoop]

/-- C3 (amended): with a valid session, the src/scraper.ts orchestrator still
navigates to the login page once (the validity probe needs the rendered
page), but performs no credential fill, no submit click and no account-tile
click, proceeding directly to scraping; the src/index.ts orchestrator skips
navigation, fill and submit entirely when the session file exists. -/
theorem C3_thm (env : ScraperEnv) (hvalid : env.signInPromptVisible = false) (pw : Bool) :
    RunEvent.navigateLoginPage ∈ (scraperRun env).1
      ∧ RunEvent.fillUsernameField ∉ (scraperRun env).1
      ∧ RunEvent.fillPasswordField ∉ (scraperRun env).1
      ∧ RunEvent.clickSubmit ∉ (scraperRun env).1
      ∧ RunEvent.clickAccountTile ∉ (scraperRun env).1
      ∧ indexRun true pw = ([RunEvent.scrapeTemplatesStep], none) := by
  obtain ⟨tailEvs, hev, hshape⟩ := scraperRun_valid_session env hvalid
  rw [hev]
  have htail : ∀ ev, ev ∈ tailEvs →
      ev ≠ RunEvent.fillUsernameField ∧ ev ≠ RunEvent.fillPasswordField ∧
      ev ≠ RunEvent.clickSubmit ∧ ev ≠ RunEvent.clickAccountTile := by
    intro ev hev2
    rcases hshape ev hev2 with ⟨s, rfl⟩ | ⟨p, rfl⟩ <;> simp
  refine ⟨by simp, ?_, ?_, ?_, ?_, by simp [indexRun]⟩
  · intro hmem
    simp only [List.mem_cons] at hmem
    rcases hmem with h | h | h | h | h
    any_goals exact RunEvent.noConfusion h
    exact (htail _ h).1 rfl
  · intro hmem
    simp only [List.mem_cons] at hmem
    rcases hmem with h | h | h | h | h
    any_goals exact RunEvent.noConfusion h
    exact (htail _ h).2.1 rfl
  · intro hmem
    simp only [List.mem_cons] at hmem
    rcases hmem with h | h | h | h | h
    any_goals exact RunEvent.noConfusion h
    exact (htail _ h).2.2.1 rfl
  · intro hmem
    simp only [List.mem_cons] at hmem
    rcases hmem with h | h | h | h | h
    any_goals exact RunEvent.noConfusion h
    exact (htail _ h).2.2.2 rfl

/-- C3 witness: the amended statement on the concrete valid-session
environment. -/
theorem C3_witness :
    RunEvent.navigateLoginPage ∈ (scraperRun validSessionEnv).1
      ∧ RunEvent.fillUsernameField ∉ (scraperRun validSessionEnv).1
      ∧ RunEvent.fillPasswordField ∉ (scraperRun validSessionEnv).1
      ∧ RunEvent.clickSubmit ∉ (scraperRun validSessionEnv).1
      ∧ RunEvent.clickAccountTile ∉ (scraperRun validSessionEnv).1
      ∧ indexRun true true = ([RunEvent.scrapeTemplatesStep], none) :=
  C3_thm validSessionEnv rfl true

/-! ## C10: communications exports are written exactly for non-empty results -/

/-- C10: in the per-case export loop of src/scraper.ts, a communications
export file is written exactly when some processed case has that file's path
and its scraped communications value has positive length — a case yielding
zero communications produces no write event at all. -/
theorem C10_thm (now stack : String) (commResp : String → RespOutcome) (l : List Json)
    (hl : ∀ x ∈ l, x.isNull = false) (p : String) :
    RunEvent.writeFile p ∈ (caseLoop now stack commResp l).1 ↔
      ∃ x ∈ l, p = commExportPath x ∧ jsLenPos (scrapedComms now stack commResp x) = true := by
  induction l with
  | nil => simp [caseLoop]
  | cons x rest ih =>
    have hx : x.isNull = false := hl x (List.mem_cons_self x rest)
    have ih2 := ih (fun y hy => hl y (List.mem_cons_of_mem x hy))
    have hstep : (caseLoop now stack commResp (x :: rest)).1
        = RunEvent.scrapeCommunicationsStep (caseIdStr x) ::
          ((if jsLenPos (scrapedComms now stack commResp x) = true
            then [RunEvent.writeFile (commExportPath x)] else [])
            ++ (caseLoop now stack commResp rest).1) := by
      simp [caseLoop, hx, scrapedComms]
    rw [hstep]
    constructor
    · intro hmem
      rcases List.mem_cons.mp hmem with h | hmem2
      · exact RunEvent.noConfusion h
      · rcases List.mem_append.mp hmem2 with h | h
        · by_cases hw : jsLenPos (scrapedComms now stack commResp x) = true
          · rw [if_pos hw] at h
            have h2 := List.mem_singleton.mp h
            injection h2 with hp
            exact ⟨x, List.mem_cons_self x rest, hp, hw⟩
          · rw [if_neg hw] at h
            simp at h
        · rcases ih2.mp h with ⟨y, hy, hpy, hly⟩
          exact ⟨y, List.mem_cons_of_mem x hy, hpy, hly⟩
    · rintro ⟨y, hy, hpy, hly⟩
      rcases List.mem_cons.mp hy with rfl | hy2
      · refine List.mem_cons_of_mem _ (List.mem_append.mpr (Or.inl ?_))
        rw [if_pos hly, hpy]
        exact List.mem_singleton.mpr rfl
      · exact List.mem_cons_of_mem _
          (List.mem_append.mpr (Or.inr (ih2.mpr ⟨y, hy2, hpy, hly⟩)))

/-- A per-case response environment whose communications value holds one
message. -/
def demoCommResp : String → RespOutcome :=
  fun _ => RespOutcome.arrives (Json.obj [("value", Json.arr [Json.str "m"])])

/-- C10 witness: a case with one scraped communication gets its export file
write event. -/
theorem C10_witness :
    RunEvent.writeFile "exports/communications_c1.json"
      ∈ (caseLoop "2025-01-01T00:00:00.000Z" "stacktrace" demoCommResp [mockedCaseRecord]).1 := by
  refine (C10_thm "2025-01-01T00:00:00.000Z" "stacktrace" demoCommResp [mockedCaseRecord]
      (by simp [mockedCaseRecord, Json.isNull]) _).mpr ?_
  refine ⟨mockedCaseRecord, List.mem_singleton.mpr rfl, ?_, ?_⟩
  · simp [commExportPath, caseIdStr, jsField, jsMember, jsToString, jsToStr, mockedCaseRecord]
  · simp [scrapedComms, scrapeCommunications, demoCommResp, jsMember, jsLenPos,
      caseIdStr, caseNameStr, jsField, jsToString, jsToStr, mockedCaseRecord]

end PurviewMigrator
